import Mathlib

/-!
Verification of the annotation session state machine of the
image-annotation-tool repository.

The component state lives in the React component of `App.js` (the variant
with undo/redo history): `imageSrc`, `annotations`, `currentLabel`,
`isDrawing`, `startPos`, `currentBox`, `undoStack`, `redoStack`.  Each
event handler (`handleImageUpload`, `handleMouseDown`, `handleMouseMove`,
`handleMouseUp`, `handleLabelChange`, `handleUndo`, `handleRedo`,
`handleDownload`) is embedded as a pure function from session state to
session state (plus, for the download handler, the exported document).
JavaScript numbers used as pixel coordinates are embedded as `Int`
(coordinate differences may be negative); labels are strings.
-/

/-- A bounding box as built in `handleMouseMove`:
`{x, y, width, height, label}` with signed width/height. -/
structure Box where
  x : Int
  y : Int
  width : Int
  height : Int
  label : String
deriving DecidableEq, Repr

/-- The React component state of the history-capable variant:
one field per `useState` hook. `imageSrc` and `currentBox` are nullable
in the source, hence `Option`. The stacks hold snapshots of the
annotation list. -/
structure Session where
  imageSrc : Option String
  annotations : List Box
  currentLabel : String
  isDrawing : Bool
  startPos : Int × Int
  currentBox : Option Box
  undoStack : List (List Box)
  redoStack : List (List Box)
deriving DecidableEq, Repr

/-- The initial hook values: `useState(null)`, `useState([])`,
`useState('b')`, `useState(false)`, `useState({x:0,y:0})`,
`useState(null)`, `useState([])`, `useState([])`. -/
def initialSession : Session :=
  { imageSrc := none
    annotations := []
    currentLabel := "b"
    isDrawing := false
    startPos := (0, 0)
    currentBox := none
    undoStack := []
    redoStack := [] }

/-- `handleImageUpload`: if a file was selected, (after the reader
completes) `setImageSrc(reader.result)`; nothing else changes. With no
file, nothing happens. The decoded data-URL is embedded as an opaque
string. -/
def handleImageUpload (file : Option String) (s : Session) : Session :=
  match file with
  | none => s
  | some f => { s with imageSrc := some f }

/-- `handleMouseDown`: `if (!imageSrc) return;` then
`setIsDrawing(true); setStartPos({x: offsetX, y: offsetY})`. -/
def handleMouseDown (offsetX offsetY : Int) (s : Session) : Session :=
  match s.imageSrc with
  | none => s
  | some _ =>
      { s with isDrawing := true, startPos := (offsetX, offsetY) }

/-- `handleMouseMove`: `if (!isDrawing) return;` then rebuild the live box
from `startPos`, the event offsets and the current label, and
`setCurrentBox(newBox)`. -/
def handleMouseMove (offsetX offsetY : Int) (s : Session) : Session :=
  if s.isDrawing then
    { s with
        currentBox := some
          { x := s.startPos.1
            y := s.startPos.2
            width := offsetX - s.startPos.1
            height := offsetY - s.startPos.2
            label := s.currentLabel } }
  else s

/-- `handleMouseUp`: `if (isDrawing && currentBox)` append `currentBox` to
`annotations`, push the pre-commit list onto `undoStack`, clear
`redoStack`, clear `currentBox`; in every case `setIsDrawing(false)`. -/
def handleMouseUp (s : Session) : Session :=
  match s.isDrawing, s.currentBox with
  | true, some box =>
      { s with
          annotations := s.annotations ++ [box]
          undoStack := s.undoStack ++ [s.annotations]
          redoStack := []
          currentBox := none
          isDrawing := false }
  | true, none => { s with isDrawing := false }
  | false, _ => { s with isDrawing := false }

/-- `handleLabelChange` (and the digit-key shortcuts): set
`currentLabel` only. -/
def handleLabelChange (label : String) (s : Session) : Session :=
  { s with currentLabel := label }

/-- `handleUndo`: if `undoStack` is non-empty, `undoStack.pop()` takes the
last element of the array, the current annotations are prepended to
`redoStack` (`[annotations, ...redoStack]`), the popped snapshot becomes
the annotation list, and the popped array is written back. -/
def handleUndo (s : Session) : Session :=
  match s.undoStack.getLast? with
  | none => s
  | some lastState =>
      { s with
          redoStack := s.annotations :: s.redoStack
          annotations := lastState
          undoStack := s.undoStack.dropLast }

/-- `handleRedo`: if `redoStack` is non-empty, `redoStack.shift()` takes
the first element of the array, the current annotations are appended to
`undoStack` (`[...undoStack, annotations]`), the shifted snapshot becomes
the annotation list, and the shifted array is written back. -/
def handleRedo (s : Session) : Session :=
  match s.redoStack with
  | [] => s
  | nextState :: rest =>
      { s with
          undoStack := s.undoStack ++ [s.annotations]
          annotations := nextState
          redoStack := rest }

/-- The exported artifact built in `handleDownload`:
`{filename: 'annotated_image.jpg', annotations}`. -/
structure Document where
  filename : String
  annotations : List Box
deriving DecidableEq, Repr

/-- `handleDownload`: builds the document from the constant filename
literal and the current annotation list (a pure read of the session). -/
def handleDownload (s : Session) : Document :=
  { filename := "annotated_image.jpg", annotations := s.annotations }

/-- The commit step performed inside `handleMouseUp` when a draft box
exists: append the box, push the pre-commit list onto `undoStack`, clear
`redoStack`. -/
def commit (box : Box) (s : Session) : Session :=
  { s with
      annotations := s.annotations ++ [box]
      undoStack := s.undoStack ++ [s.annotations]
      redoStack := [] }

/-- One completed drag gesture: mouse down at `(sx, sy)`, a mouse move to
`(ex, ey)`, mouse up. -/
def completedDrag (sx sy ex ey : Int) (s : Session) : Session :=
  handleMouseUp (handleMouseMove ex ey (handleMouseDown sx sy s))

/-- Run a list of drag gestures in order. -/
def runDrags (drags : List ((Int × Int) × (Int × Int))) (s : Session) :
    Session :=
  drags.foldl (fun t d => completedDrag d.1.1 d.1.2 d.2.1 d.2.2 t) s

/-- Concrete boxes used in counterexample scenarios. -/
def boxB1 : Box := { x := 0, y := 0, width := 1, height := 1, label := "b" }

/-- A second concrete box with a different label and geometry. -/
def boxB2 : Box := { x := 5, y := 5, width := 2, height := 2, label := "i" }

/-- Committing inside `handleMouseUp` when a draft box exists is exactly
the `commit` step followed by clearing the draft and leaving Dragging. -/
theorem handleMouseUp_eq_commit (s : Session) (b : Box)
    (hd : s.isDrawing = true) (hb : s.currentBox = some b) :
    handleMouseUp s =
      { commit b s with currentBox := none, isDrawing := false } := by
  simp [handleMouseUp, hd, hb, commit]

/-- One completed drag with an image loaded appends exactly one box,
built from start point, end point and the current label, and keeps the
image loaded. -/
theorem completedDrag_step (sx sy ex ey : Int) (s : Session) (img : String)
    (h : s.imageSrc = some img) :
    (completedDrag sx sy ex ey s).annotations =
      s.annotations ++
        [{ x := sx, y := sy, width := ex - sx, height := ey - sy,
           label := s.currentLabel }] ∧
    (completedDrag sx sy ex ey s).imageSrc = some img := by
  simp [completedDrag, handleMouseDown, h, handleMouseMove, handleMouseUp]

/-- Running a list of drags with an image loaded adds one annotation per
drag. -/
theorem runDrags_length (drags : List ((Int × Int) × (Int × Int)))
    (s : Session) (img : String) (h : s.imageSrc = some img) :
    (runDrags drags s).annotations.length
      = s.annotations.length + drags.length := by
  induction drags generalizing s with
  | nil => rfl
  | cons d rest ih =>
      have step := completedDrag_step d.1.1 d.1.2 d.2.1 d.2.2 s img h
      have hfold : runDrags (d :: rest) s
          = runDrags rest (completedDrag d.1.1 d.1.2 d.2.1 d.2.2 s) := rfl
      rw [hfold, ih _ step.2, step.1]
      simp
      omega

/-- C1 counterexample: after commit boxB1, commit boxB2, undo, undo, the
redoStack is `[[boxB1], [boxB1, boxB2]]`; the snapshot enqueued by the
earliest still-pending undo (the oldest queued) is `[boxB1, boxB2]`, yet
redo() reinstates `[boxB1]` — the newest queued snapshot — refuting the
claimed first-in-first-out discipline. -/
theorem C1_counterexample :
    (handleUndo (handleUndo (commit boxB2 (commit boxB1 initialSession)))).redoStack
        = [[boxB1], [boxB1, boxB2]] ∧
    (handleRedo (handleUndo (handleUndo
        (commit boxB2 (commit boxB1 initialSession))))).annotations
        = [boxB1] ∧
    (handleRedo (handleUndo (handleUndo
        (commit boxB2 (commit boxB1 initialSession))))).annotations
        ≠ [boxB1, boxB2] := by
  refine ⟨rfl, rfl, ?_⟩
  decide

/-- C1 (amended): for every non-empty redoStack, redo() removes and
reinstates the newest queued snapshot — the head of redoStack, which is
the snapshot enqueued by the latest undo still pending, since undo()
prepends to redoStack — so the redo side is last-in-first-out, symmetric
with the undo side; redo() also pushes the current list onto undoStack
and sets the annotation list to that snapshot. -/
theorem C1_redo_takes_newest (s : Session) (S : List Box)
    (rest : List (List Box)) (h : s.redoStack = S :: rest) :
    (handleRedo s).annotations = S ∧
    (handleRedo s).undoStack = s.undoStack ++ [s.annotations] ∧
    (handleRedo s).redoStack = rest ∧
    ∀ t : Session, t.undoStack ≠ [] →
      (handleUndo t).redoStack = t.annotations :: t.redoStack := by
  refine ⟨?_, ?_, ?_, ?_⟩
  · simp [handleRedo, h]
  · simp [handleRedo, h]
  · simp [handleRedo, h]
  · intro t ht
    obtain ⟨a, ha⟩ := Option.isSome_iff_exists.mp
      (List.getLast?_isSome.mpr ht)
    simp [handleUndo, ha]

/-- C1 witness: the amended theorem applied to a concrete session whose
redoStack holds a single queued snapshot. -/
theorem C1_redo_takes_newest_witness :
    (handleRedo { initialSession with redoStack := [[boxB1]] }).annotations
      = [boxB1] :=
  (C1_redo_takes_newest { initialSession with redoStack := [[boxB1]] }
    [boxB1] [] rfl).1

/-- C2 counterexample: with an image loaded, pointer-down at (3,4)
followed immediately by pointer-up (no pointer-move, so no DraftBox)
leaves the annotation list empty — no degenerate zero-size box is
committed, refuting the second half of the claim (the transition to Idle
does happen). -/
theorem C2_counterexample :
    (handleMouseDown 3 4 (handleImageUpload (some "img") initialSession)).isDrawing
        = true ∧
    (handleMouseDown 3 4 (handleImageUpload (some "img") initialSession)).currentBox
        = none ∧
    (handleMouseUp (handleMouseDown 3 4
        (handleImageUpload (some "img") initialSession))).isDrawing = false ∧
    (handleMouseUp (handleMouseDown 3 4
        (handleImageUpload (some "img") initialSession))).annotations = [] := by
  refine ⟨rfl, rfl, rfl, rfl⟩

/-- C2 (amended): on pointer-up while Dragging the tracker transitions to
Idle unconditionally; if a DraftBox exists (even a zero-size one, since no
minimum-size threshold is enforced) it is committed and cleared, but when
no DraftBox exists nothing is committed: the session is unchanged apart
from leaving the Dragging state. -/
theorem C2_mouseUp_idle (s : Session) (hd : s.isDrawing = true) :
    (handleMouseUp s).isDrawing = false ∧
    (s.currentBox = none → handleMouseUp s = { s with isDrawing := false }) ∧
    ∀ b : Box, s.currentBox = some b →
      (handleMouseUp s).annotations = s.annotations ++ [b] ∧
      (handleMouseUp s).currentBox = none := by
  refine ⟨?_, ?_, ?_⟩
  · cases hb : s.currentBox <;> simp [handleMouseUp, hd, hb]
  · intro hb; simp [handleMouseUp, hd, hb]
  · intro b hb; simp [handleMouseUp, hd, hb]

/-- A zero-size draft box, as produced by a pointer-move that did not
leave the starting point. -/
def zeroBox : Box := { x := 3, y := 4, width := 0, height := 0, label := "b" }

/-- A session in the Dragging state holding the zero-size draft box. -/
def draggingSession : Session :=
  { initialSession with isDrawing := true, currentBox := some zeroBox }

/-- C2 witness: the amended theorem applied to a Dragging session with a
zero-size draft box, which is committed. -/
theorem C2_mouseUp_idle_witness :
    (handleMouseUp draggingSession).isDrawing = false ∧
    (handleMouseUp draggingSession).annotations = [zeroBox] := by
  have h := C2_mouseUp_idle draggingSession rfl
  exact ⟨h.1, (h.2.2 zeroBox rfl).1⟩

/-- C3: committing a box B and then calling undo() restores the
pre-commit annotation list, and a subsequent redo() restores the
post-commit list (the list with B appended). -/
theorem C3_undo_redo_inverse (s : Session) (B : Box) :
    (handleUndo (commit B s)).annotations = s.annotations ∧
    (handleRedo (handleUndo (commit B s))).annotations
      = (commit B s).annotations := by
  constructor
  · simp [commit, handleUndo, List.getLast?_concat]
  · simp [commit, handleUndo, handleRedo, List.getLast?_concat]

/-- C4: every commit pushes the pre-commit snapshot onto undoStack and
clears redoStack entirely; hence after any undo() followed by a new
commit(), redo() is a no-op because redoStack is empty. -/
theorem C4_commit_clears_redo (s : Session) (B : Box) :
    (commit B s).undoStack = s.undoStack ++ [s.annotations] ∧
    (commit B s).redoStack = [] ∧
    handleRedo (commit B (handleUndo s)) = commit B (handleUndo s) := by
  exact ⟨rfl, rfl, rfl⟩

/-- C5: commit appends the given box at the end of the list, preserving
all existing elements and always succeeding; consequently, after N
completed drags from the initial session with an image loaded and no
undo, the annotation list has length N. -/
theorem C5_append_only :
    (∀ (s : Session) (B : Box),
        (commit B s).annotations = s.annotations ++ [B]) ∧
    ∀ (img : String) (drags : List ((Int × Int) × (Int × Int))),
      (runDrags drags
          (handleImageUpload (some img) initialSession)).annotations.length
        = drags.length := by
  refine ⟨fun s B => rfl, fun img drags => ?_⟩
  have h := runDrags_length drags
    (handleImageUpload (some img) initialSession) img rfl
  simpa [handleImageUpload, initialSession] using h

/-- C6: the export operation always produces exactly the document with
the fixed literal filename "annotated_image.jpg" (never derived from the
uploaded file's name) and the current annotation list; in the concrete
scenario — load an image, drag from (10,10) to (110,60) with the default
"button" label code "b" — the exported document is as the spec states. -/
theorem C6_export_document :
    (∀ s : Session,
        handleDownload s =
          { filename := "annotated_image.jpg",
            annotations := s.annotations }) ∧
    handleDownload (completedDrag 10 10 110 60
        (handleImageUpload (some "my_photo.png") initialSession))
      = { filename := "annotated_image.jpg",
          annotations :=
            [{ x := 10, y := 10, width := 100, height := 50,
               label := "b" }] } := by
  exact ⟨fun s => rfl, rfl⟩

/-- C7: with no image loaded, a pointer-down event produces no state
change at all: no transition to Dragging, no start position recorded,
the DraftBox (and everything else) untouched. -/
theorem C7_pointerDown_gated (s : Session) (x y : Int)
    (h : s.imageSrc = none) :
    handleMouseDown x y s = s := by
  simp [handleMouseDown, h]

/-- C7 witness: the theorem applied to the initial session, which has no
image loaded. -/
theorem C7_pointerDown_gated_witness :
    handleMouseDown 5 7 initialSession = initialSession :=
  C7_pointerDown_gated initialSession 5 7 rfl

/-- C8: loading an image replaces the image reference only — the
annotations, both history stacks, the selected label, the drag flag, the
start position and the draft box are all unchanged, whether or not a file
was actually selected. -/
theorem C8_upload_frame (s : Session) (f : Option String) :
    (handleImageUpload f s).annotations = s.annotations ∧
    (handleImageUpload f s).undoStack = s.undoStack ∧
    (handleImageUpload f s).redoStack = s.redoStack ∧
    (handleImageUpload f s).currentLabel = s.currentLabel ∧
    (handleImageUpload f s).isDrawing = s.isDrawing ∧
    (handleImageUpload f s).startPos = s.startPos ∧
    (handleImageUpload f s).currentBox = s.currentBox := by
  cases f <;> simp [handleImageUpload]

/-- C9: undo() on an empty undoStack and redo() on an empty redoStack are
silent no-ops leaving the entire session state unchanged (no error is
modelled anywhere in the handlers — they are total functions). -/
theorem C9_empty_stack_noop :
    (∀ s : Session, s.undoStack = [] → handleUndo s = s) ∧
    (∀ s : Session, s.redoStack = [] → handleRedo s = s) := by
  constructor
  · intro s h; simp [handleUndo, h]
  · intro s h; simp [handleRedo, h]

/-- C9 witness: both halves applied to the initial session, whose stacks
are empty. -/
theorem C9_empty_stack_noop_witness :
    initialSession.undoStack = [] ∧
    handleUndo initialSession = initialSession ∧
    initialSession.redoStack = [] ∧
    handleRedo initialSession = initialSession :=
  ⟨rfl, C9_empty_stack_noop.1 initialSession rfl, rfl,
    C9_empty_stack_noop.2 initialSession rfl⟩

/-- C10: the committed box carries the label that was selected at the
time of the gesture's last pointer-move; changing the selected label
after that move and before pointer-up has no effect on the committed
annotations. -/
theorem C10_label_at_move_time (s : Session) (x y : Int) (lbl : String)
    (hd : s.isDrawing = true) :
    (handleMouseUp (handleLabelChange lbl
        (handleMouseMove x y s))).annotations
      = s.annotations ++
        [{ x := s.startPos.1, y := s.startPos.2,
           width := x - s.startPos.1, height := y - s.startPos.2,
           label := s.currentLabel }] ∧
    (handleMouseUp (handleLabelChange lbl
        (handleMouseMove x y s))).annotations
      = (handleMouseUp (handleMouseMove x y s)).annotations := by
  constructor
  · simp [handleMouseMove, hd, handleLabelChange, handleMouseUp]
  · simp [handleMouseMove, hd, handleLabelChange, handleMouseUp]

/-- C10 witness: a drag from the origin to (4,6) with selected label "b",
then a label change to "t" before release: the committed box keeps label
"b". -/
theorem C10_label_at_move_time_witness :
    (handleMouseUp (handleLabelChange "t" (handleMouseMove 4 6
        { initialSession with isDrawing := true }))).annotations
      = [{ x := 0, y := 0, width := 4, height := 6, label := "b" }] := by
  have h := C10_label_at_move_time
    { initialSession with isDrawing := true } 4 6 "t" rfl
  simpa [initialSession] using h.1
